import Mathlib

/-!
Verification development for the procedural video-composition pipeline of the
redit-video-bot repository.  The definitions below are shallow embeddings of
the TypeScript source:

* `src/server/services/video-simple.ts` — the segmenter (`createContentSlides`,
  `createCompilationSlides`), the renderer loop (`generateSlideImages`), and the
  ffmpeg composer (`createSlideshowVideo`, orchestrated by `generateVideo`).
  This is the variant imported by `src/server/routes.ts`.
* `src/server/services/video.ts` — the word-count based segment-duration
  formula of `createVideoSegments` and the duration reported by `composeVideo`.
* `src/server/services/video-text.ts` — the `escapeText` sanitizer.
* `src/server/routes.ts` — the `/videos` static route guard.

Durations are modelled as rationals (`ℚ`); JS strings as Lean `String`
(UTF-16 length subtleties do not matter for the inputs considered).
-/

namespace RedditVideoBot

/-! ## video-simple.ts : data model -/

/-- Input record of `generateVideo` (video-simple.ts, `VideoOptions`). -/
structure VideoOptions where
  title : String
  content : String
  hook : String
  thumbnailText : String
deriving DecidableEq

/-- One slide produced by `createContentSlides` (fields `type`, `text`,
`subtitle`, `duration`). -/
structure Slide where
  type : String
  text : String
  subtitle : String
  duration : ℚ
deriving DecidableEq

/-! ## video-simple.ts : segmenter (`createContentSlides`, lines 59-101) -/

/-- Sentence-terminating characters of the regex `[.!?]`. -/
def isTerm (c : Char) : Bool := c = '.' || c = '!' || c = '?'

/-- JS `content.split(/[.!?]+/)`: split on maximal nonempty runs of
sentence-terminating punctuation, keeping the (possibly empty) fields before
the first run and after the last run, exactly as `String.prototype.split`
does with a `+`-quantified character class. -/
def splitTermRuns : List Char → List (List Char)
  | [] => [[]]
  | c :: rest =>
    let tl := splitTermRuns rest
    if isTerm c then
      match rest with
      | [] => [] :: tl
      | c2 :: _ => if isTerm c2 then tl else [] :: tl
    else
      match tl with
      | h :: t => (c :: h) :: t
      | [] => [[c]]

/-- JS `String.prototype.trim`: strip leading and trailing whitespace. -/
def jsTrim (s : String) : String :=
  (((s.data.dropWhile Char.isWhitespace).reverse.dropWhile Char.isWhitespace).reverse).asString

/-- The sentence list of video-simple.ts line 79:
`content.split(/[.!?]+/).filter(s => s.trim().length > 10)`. -/
def jsSentences (content : String) : List String :=
  ((splitTermRuns content.data).map List.asString).filter (fun s => 10 < (jsTrim s).length)

/-- Duration of a body ("content") slide, video-simple.ts line 87:
`Math.max(4, slideText.length / 15)`. -/
def bodyDuration (t : String) : ℚ := max 4 ((t.length : ℚ) / 15)

/-- One iteration body of the grouping loop (lines 80-90): push a `content`
slide when the joined, trimmed text is nonempty (JS truthiness of a string). -/
def mkBodySlide (t : String) : List Slide :=
  if t = "" then [] else [⟨"content", t, "", bodyDuration t⟩]

/-- The grouping loop of lines 80-90: `for (i = 0; i < sentences.length; i += 2)`
with `slideText = sentences.slice(i, i + 2).join(". ").trim()`. -/
def contentSlidesFromSentences : List String → List Slide
  | [] => []
  | [a] => mkBodySlide (jsTrim a)
  | a :: b :: rest => mkBodySlide (jsTrim (a ++ ". " ++ b)) ++ contentSlidesFromSentences rest

/-- The `title` slide of lines 64-69; `thumbnailText || title` falls back to
the title when the thumbnail text is the (falsy) empty string. -/
def titleSlide (opts : VideoOptions) : Slide :=
  ⟨"title", if opts.thumbnailText = "" then opts.title else opts.thumbnailText, "BREAKING NEWS", 3⟩

/-- The `hook` slide of lines 70-75. -/
def hookSlide (opts : VideoOptions) : Slide := ⟨"hook", opts.hook, "", 5⟩

/-- The trailing call-to-action slide of lines 92-98. -/
def ctaSlide : Slide := ⟨"cta", "What do you think?", "Like & Subscribe for more news!", 3⟩

/-- `createContentSlides` (video-simple.ts lines 59-101): title slide, hook
slide, one `content` slide per batch of two usable sentences, then the CTA. -/
def createContentSlides (opts : VideoOptions) : List Slide :=
  [titleSlide opts, hookSlide opts]
    ++ contentSlidesFromSentences (jsSentences opts.content)
    ++ [ctaSlide]

/-- Sum of the per-slide durations the segmenter attached to a slide list. -/
def slideDurationSum (slides : List Slide) : ℚ := (slides.map (·.duration)).sum

/-! ## video-simple.ts : compilation segmenter (`createCompilationSlides`, lines 300-364) -/

/-- One input article of `generateCompilationVideo` (video-simple.ts, `ArticleData`). -/
structure ArticleData where
  title : String
  content : String
  source : String
  publishedAt : String
deriving DecidableEq

/-- Input record of `generateCompilationVideo` (`CompilationVideoOptions`). -/
structure CompilationVideoOptions where
  articles : List ArticleData
  compilationTitle : String
  hook : String
  thumbnailText : String
deriving DecidableEq

/-- A compilation slide (fields `type`, `text`, `background`, `duration`). -/
structure CompSlide where
  type : String
  text : String
  background : String
  duration : ℚ
deriving DecidableEq

/-- The four slides pushed for the article at position `index`
(video-simple.ts lines 321-353). -/
def articleSlides (index : Nat) (a : ArticleData) : List CompSlide :=
  [⟨"number", "#" ++ toString (index + 1), "gradient-purple", 2⟩,
   ⟨"subtitle", a.title, "gradient-blue", 5⟩,
   ⟨"content", a.content, "gradient-green", 6⟩,
   ⟨"source", "Source: " ++ a.source, "gradient-gray", 2⟩]

/-- The `articles.forEach((article, index) => ...)` loop of lines 321-353. -/
def compArticleSlidesAux : Nat → List ArticleData → List CompSlide
  | _, [] => []
  | i, a :: rest => articleSlides i a ++ compArticleSlidesAux (i + 1) rest

/-- `createCompilationSlides` (lines 300-364): an opening `title` slide showing
the hook, a `title` slide showing the compilation title, four slides per
article, and a `closing` slide showing the thumbnail text. -/
def createCompilationSlides (opts : CompilationVideoOptions) : List CompSlide :=
  [⟨"title", opts.hook, "gradient-red", 3⟩,
   ⟨"title", opts.compilationTitle, "gradient-blue", 4⟩]
    ++ compArticleSlidesAux 0 opts.articles
    ++ [⟨"closing", opts.thumbnailText, "gradient-red", 4⟩]

/-! ## video-simple.ts : renderer loop (`generateSlideImages`, lines 103-115) -/

/-- Output directory of the service (video-simple.ts line 28). -/
def outputDir : String := "./generated-videos"

/-- Image path of the slide at index `i`:
`join(outputDir, videoId + "_slide_" + i + ".png")` (line 108). -/
def slideImagePath (videoId : String) (i : Nat) : String :=
  outputDir ++ "/" ++ videoId ++ "_slide_" ++ toString i ++ ".png"

/-- The `for (i = 0; ...)` loop of `generateSlideImages`, recorded as the
ordered list of (slide, image path) render calls it performs. -/
def renderLoopAux (videoId : String) : Nat → List Slide → List (Slide × String)
  | _, [] => []
  | i, s :: rest => (s, slideImagePath videoId i) :: renderLoopAux videoId (i + 1) rest

/-- `generateSlideImages` (lines 103-115): render every slide in order and
return the pushed image paths. -/
def generateSlideImages (slides : List Slide) (videoId : String) : List String :=
  (renderLoopAux videoId 0 slides).map Prod.snd

/-! ## video-simple.ts : composer (`createSlideshowVideo`, lines 221-275) -/

/-- The hardcoded duration table of line 231:
`const slideDurations = [3, 5, 4, 4, 4, 3]`. -/
def slideDurationsArr : List ℚ := [3, 5, 4, 4, 4, 3]

/-- `slideDurations[i] || 4` (line 239): out-of-range indexing yields the JS
`undefined`, and `undefined || 4` (like the falsy `0 || 4`) is `4`. -/
def jsSlideDuration (i : Nat) : ℚ :=
  let v := slideDurationsArr.getD i 0
  if v = 0 then 4 else v

/-- `slideDurations.reduce((sum, dur) => sum + dur, 0)` (line 232) — the value
the composer reports as the total duration, independent of the slides. -/
def slideshowTotalDuration : ℚ := slideDurationsArr.sum

/-- A fade filter step `fade=...:st=start:d=dur`. -/
structure Fade where
  start : ℚ
  dur : ℚ
deriving DecidableEq

/-- The per-slide filter chain built at lines 238-251: scale to 1920x1080,
reset timestamps, fade in, optionally fade out, then
`tpad=stop_mode=clone:stop_duration=<d>` holding the frame. -/
structure SlideChain where
  scaleW : Nat
  scaleH : Nat
  fadeIn : Fade
  fadeOut : Option Fade
  padStopDuration : ℚ
deriving DecidableEq

/-- The chain the `forEach` body emits for input `i`: the `i === 0` branch has
no fade out; every other branch fades out at `duration - 0.5`. -/
def slideChain (i : Nat) : SlideChain :=
  let d := jsSlideDuration i
  if i = 0 then ⟨1920, 1080, ⟨0, 1/2⟩, none, d⟩
  else ⟨1920, 1080, ⟨0, 1/2⟩, some ⟨d - 1/2, 1/2⟩, d⟩

/-- All per-slide chains of a composition over `n` slides, in input order. -/
def slideChains (n : Nat) : List SlideChain := (List.range n).map slideChain

/-- The concat skeleton of the filter graph: `held i` is the padded stream
`[vout0]`/`[vtempi]` of input `i`, `concat a b` is one
`[a][b]concat=n=2:v=1:a=0` step. -/
inductive ConcatTree where
  | held : Nat → ConcatTree
  | concat : ConcatTree → ConcatTree → ConcatTree
deriving DecidableEq

/-- The `previousOutput` accumulation of the `forEach` at lines 238-251:
input 0 starts the stream, every later input is concatenated onto the
accumulated stream. -/
def buildConcatTree (slideCount : Nat) : Option ConcatTree :=
  (List.range slideCount).foldl
    (fun acc i =>
      if i = 0 then some (.held 0)
      else
        match acc with
        | some prev => some (.concat prev (.held i))
        | none => none)
    none

/-- The source slide indices of a stream, in playback order. -/
def leaves : ConcatTree → List Nat
  | .held i => [i]
  | .concat a b => leaves a ++ leaves b

/-- Left-nested concatenation of inputs `0, ..., n`: the shape the loop builds. -/
def leftNest : Nat → ConcatTree
  | 0 => .held 0
  | n + 1 => .concat (leftNest n) (.held (n + 1))

/-- Outcome of `createSlideshowVideo` (lines 221-275), parameterized by the
result of the ffmpeg run: on success it resolves with the hardcoded
`totalDuration`; on error it rejects with
`Video composition failed: <err.message>` (line 271), preserving the backend
diagnostic. -/
def createSlideshowVideo (backendResult : Except String Unit) (_slidePaths : List String) :
    Except String ℚ :=
  match backendResult with
  | .ok _ => .ok slideshowTotalDuration
  | .error msg => .error ("Video composition failed: " ++ msg)

/-- Return value of `generateVideo` (video-simple.ts line 36). -/
structure GenResult where
  videoPath : String
  duration : ℚ
  relativePath : String
deriving DecidableEq

/-- `generateVideo` (lines 36-57): segment, render, compose; the catch block
rethrows any error as `Video generation failed: <message>` (line 55).
`videoId` abstracts the time-based token `video_` + `Date.now()`. -/
def generateVideo (backendResult : Except String Unit) (videoId : String)
    (opts : VideoOptions) : Except String GenResult :=
  let outputPath := outputDir ++ "/" ++ videoId ++ ".mp4"
  let slides := createContentSlides opts
  let slidePaths := generateSlideImages slides videoId
  match createSlideshowVideo backendResult slidePaths with
  | .ok d => .ok ⟨outputPath, d, videoId ++ ".mp4"⟩
  | .error e => .error ("Video generation failed: " ++ e)

/-! ## video.ts : word-count durations (`createVideoSegments`, lines 88-123)
and the duration reported by `composeVideo` (lines 277-282) -/

/-- `const avgWordsPerSecond = 2.5` (video.ts line 103). -/
def avgWordsPerSecond : ℚ := 5 / 2

/-- `segmentText.split(" ").length` — splitting on the one-character separator
yields one more piece than the number of separator occurrences. -/
def wordCount (t : String) : Nat := t.data.count ' ' + 1

/-- `Math.max(8, Math.min(20, wordCount / avgWordsPerSecond))`
(video.ts line 110). -/
def segmentDuration (w : Nat) : ℚ := max 8 (min 20 ((w : ℚ) / avgWordsPerSecond))

/-- One segment of video.ts (`VideoSegment`). -/
structure VideoSegment where
  text : String
  startTime : ℚ
  duration : ℚ
deriving DecidableEq

/-- The body loop of `createVideoSegments` (video.ts lines 106-120): batch the
usable sentences in pairs, join with `". "`, trim, and attach
`segmentDuration` of the word count, accumulating start times. -/
def bodySegmentsAux : ℚ → List String → List VideoSegment
  | _, [] => []
  | time, [a] =>
    if jsTrim a = "" then []
    else [⟨jsTrim a, time, segmentDuration (wordCount (jsTrim a))⟩]
  | time, a :: b :: rest =>
    if jsTrim (a ++ ". " ++ b) = "" then bodySegmentsAux time rest
    else
      ⟨jsTrim (a ++ ". " ++ b), time, segmentDuration (wordCount (jsTrim (a ++ ". " ++ b)))⟩ ::
        bodySegmentsAux (time + segmentDuration (wordCount (jsTrim (a ++ ". " ++ b)))) rest

/-- `createVideoSegments` (video.ts lines 88-123): a 15 second hook segment,
then the batched body segments starting at time 15. -/
def createVideoSegments (hook content : String) : List VideoSegment :=
  ⟨hook, 0, 15⟩ :: bodySegmentsAux 15 (jsSentences content)

/-- The duration `composeVideo` reports on success (video.ts lines 279-281):
`segments.reduce((sum, segment) => sum + segment.duration, 0)`. -/
def composeVideoReportedDuration (segments : List VideoSegment) : ℚ :=
  (segments.map (·.duration)).sum

/-! ## routes.ts : the `/videos` static route guard (lines 507-514) -/

/-- What the `/videos` middleware stack does with a request. -/
inductive VideosRouteResult where
  | notFound
  | serveStatic (path : String)
deriving DecidableEq

/-- JS `String.prototype.endsWith`. -/
def jsEndsWith (s suffix : String) : Bool := suffix.data.isSuffixOf s.data

/-- The guard of routes.ts lines 508-514: requests whose path does not end in
`.mp4` get a 404 response; all others fall through to
`express.static("./generated-videos")`. -/
def videosRoute (reqPath : String) : VideosRouteResult :=
  if !jsEndsWith reqPath ".mp4" then .notFound else .serveStatic reqPath

/-! ## video-text.ts : `escapeText` (lines 92-104) -/

/-- JS `String.prototype.replace` with a global one-character pattern:
every occurrence of `t` becomes the replacement `r`. -/
def replaceChar (t : Char) (r : List Char) (s : List Char) : List Char :=
  s.flatMap (fun c => if c = t then r else [c])

/-- The backslash character. -/
def bslash : Char := Char.ofNat 92

/-- The single-quote character. -/
def squote : Char := Char.ofNat 39

/-- The eight chained `.replace` calls of video-text.ts lines 94-102, in
source order: escape quote, colon, brackets, comma and semicolon with a
backslash, and turn newlines and carriage returns into spaces. -/
def escapeChain (s : List Char) : List Char :=
  replaceChar '\r' [' ']
    (replaceChar '\n' [' ']
      (replaceChar ';' [bslash, ';']
        (replaceChar ',' [bslash, ',']
          (replaceChar ']' [bslash, ']']
            (replaceChar '[' [bslash, '[']
              (replaceChar ':' [bslash, ':']
                (replaceChar squote [bslash, squote] s)))))))

/-- `escapeText` (lines 92-104): the replace chain followed by
`.substring(0, 200)`. -/
def escapeTextData (s : List Char) : List Char := (escapeChain s).take 200

/-- String-level `escapeText`. -/
def escapeText (s : String) : String := (escapeTextData s.data).asString

/-- The characters the drawtext escaping protects with a backslash. -/
def isSpecial (c : Char) : Bool :=
  c = squote || c = ':' || c = '[' || c = ']' || c = ',' || c = ';'

/-- Single-pass characterization of the replace chain. -/
def escChar (c : Char) : List Char :=
  if isSpecial c then [bslash, c]
  else if c = '\n' || c = '\r' then [' ']
  else [c]

/-- Scanner for the escaping discipline: walking the list with the previous
character at hand, every special character must be immediately preceded by a
backslash. -/
def noUnescaped (prev : Char) : List Char → Bool
  | [] => true
  | c :: rest => (!isSpecial c || (prev == bslash)) && noUnescaped c rest

/-- A list is well escaped when no special character appears unescaped,
including at the very first position (the initial `prev` is a space, which is
not a backslash). -/
def wellEscaped (l : List Char) : Bool := noUnescaped ' ' l

/-! ## Helper lemmas -/

/-- Body slides always carry a strictly positive duration. -/
theorem bodyDuration_pos (t : String) : 0 < bodyDuration t :=
  lt_of_lt_of_le (by norm_num) (le_max_left _ _)

/-- A slide emitted by `mkBodySlide t` has duration `bodyDuration t`. -/
theorem mem_mkBodySlide {t : String} {sl : Slide} (h : sl ∈ mkBodySlide t) :
    sl.duration = bodyDuration t := by
  unfold mkBodySlide at h
  split at h
  · simp at h
  · simp at h
    subst h
    rfl

/-- Every slide the grouping loop emits has a strictly positive duration. -/
theorem mem_contentSlides_pos :
    ∀ (l : List String) (sl : Slide), sl ∈ contentSlidesFromSentences l → 0 < sl.duration
  | [], _ => by simp [contentSlidesFromSentences]
  | [a], sl => fun h => by
    rw [mem_mkBodySlide (by simpa [contentSlidesFromSentences] using h)]
    exact bodyDuration_pos _
  | a :: b :: rest, sl => fun h => by
    rw [contentSlidesFromSentences] at h
    rcases List.mem_append.mp h with h1 | h2
    · rw [mem_mkBodySlide h1]
      exact bodyDuration_pos _
    · exact mem_contentSlides_pos rest sl h2

/-- Every body segment of video.ts carries exactly the word-count duration. -/
theorem mem_bodySegmentsAux :
    ∀ (time : ℚ) (l : List String) (seg : VideoSegment), seg ∈ bodySegmentsAux time l →
      seg.duration = segmentDuration (wordCount seg.text)
  | _, [], _ => by simp [bodySegmentsAux]
  | time, [a], seg => fun h => by
    unfold bodySegmentsAux at h
    split at h
    · simp at h
    · simp at h
      subst h
      rfl
  | time, a :: b :: rest, seg => fun h => by
    unfold bodySegmentsAux at h
    split at h
    · exact mem_bodySegmentsAux _ rest seg h
    · rcases List.mem_cons.mp h with h1 | h2
      · subst h1
        rfl
      · exact mem_bodySegmentsAux _ rest seg h2

/-- The render loop pairs the slide at position `i` with the image path
indexed `i` (stated with an arbitrary starting index). -/
theorem renderLoopAux_eq (l : List Slide) (v : String) :
    ∀ i, renderLoopAux v i l =
      l.zip ((List.range l.length).map (fun j => slideImagePath v (i + j))) := by
  induction l with
  | nil => intro i; rfl
  | cons s rest ih =>
    intro i
    have hfun : (fun j => slideImagePath v (i + (j + 1))) = (fun j => slideImagePath v ((i + 1) + j)) := by
      funext j
      congr 1
      omega
    simp only [renderLoopAux, List.length_cons, List.range_succ_eq_map, List.map_cons,
      List.map_map, List.zip_cons_cons, Nat.add_zero]
    refine congrArg (fun x => (s, slideImagePath v i) :: x) ?_
    rw [ih (i + 1)]
    refine congrArg (fun x => rest.zip x) ?_
    refine List.map_congr_left ?_
    intro j _
    simp [Function.comp]
    congr 1
    omega

/-- The concat accumulation builds the left-nested tree over inputs `0..n`. -/
theorem buildConcatTree_eq : ∀ n : Nat, buildConcatTree (n + 1) = some (leftNest n) := by
  intro n
  induction n with
  | zero => rfl
  | succ n ih =>
    unfold buildConcatTree at ih ⊢
    rw [List.range_succ, List.foldl_append, ih]
    simp [leftNest]

/-- The leaves of the left-nested tree are the inputs in order. -/
theorem leaves_leftNest : ∀ n : Nat, leaves (leftNest n) = List.range (n + 1) := by
  intro n
  induction n with
  | zero => rfl
  | succ n ih => simp [leftNest, leaves, ih, List.range_succ]

/-- Global single-character replacement distributes over append. -/
theorem replaceChar_append (t : Char) (r : List Char) (a b : List Char) :
    replaceChar t r (a ++ b) = replaceChar t r a ++ replaceChar t r b := by
  simp [replaceChar]

/-- The replace chain distributes over append. -/
theorem escapeChain_append (a b : List Char) :
    escapeChain (a ++ b) = escapeChain a ++ escapeChain b := by
  simp [escapeChain, replaceChar_append]

/-- On a single character the eight replace passes act as `escChar`. -/
theorem escapeChain_single (c : Char) : escapeChain [c] = escChar c := by
  by_cases h1 : c = squote
  · subst h1; decide
  by_cases h2 : c = ':'
  · subst h2; decide
  by_cases h3 : c = '['
  · subst h3; decide
  by_cases h4 : c = ']'
  · subst h4; decide
  by_cases h5 : c = ','
  · subst h5; decide
  by_cases h6 : c = ';'
  · subst h6; decide
  by_cases h7 : c = '\n'
  · subst h7; decide
  by_cases h8 : c = '\r'
  · subst h8; decide
  simp [escapeChain, replaceChar, escChar, isSpecial, h1, h2, h3, h4, h5, h6, h7, h8]

/-- The sequential replace chain equals the single-pass per-character map:
no replacement output is itself rewritten by a later pass. -/
theorem escapeChain_eq_flatMap : ∀ s : List Char, escapeChain s = s.flatMap escChar := by
  intro s
  induction s with
  | nil => rfl
  | cons c s ih =>
    rw [show (c :: s) = [c] ++ s from rfl, escapeChain_append, escapeChain_single, ih]
    simp

/-- The fully escaped stream never contains an unescaped special character,
whatever character precedes it. -/
theorem noUnescaped_flatMap : ∀ (s : List Char) (p : Char),
    noUnescaped p (s.flatMap escChar) = true := by
  intro s
  induction s with
  | nil => intro p; rfl
  | cons c s ih =>
    intro p
    rw [List.flatMap_cons]
    by_cases h7 : c = '\n'
    · subst h7
      rw [show escChar '\n' = [' '] from by decide]
      have hsp : isSpecial ' ' = false := by decide
      simp [noUnescaped, hsp, ih]
    by_cases h8 : c = '\r'
    · subst h8
      rw [show escChar '\r' = [' '] from by decide]
      have hsp : isSpecial ' ' = false := by decide
      simp [noUnescaped, hsp, ih]
    by_cases hs : isSpecial c = true
    · have he : escChar c = [bslash, c] := by simp [escChar, hs]
      rw [he]
      have hb : isSpecial bslash = false := by decide
      simp [noUnescaped, hb, ih]
    · have he : escChar c = [c] := by simp [escChar, hs, h7, h8]
      rw [he]
      simp [noUnescaped, hs, ih]

/-- Truncation preserves the escaping discipline: every surviving special
character keeps its (also surviving) preceding backslash. -/
theorem noUnescaped_take : ∀ (l : List Char) (p : Char) (n : Nat),
    noUnescaped p l = true → noUnescaped p (l.take n) = true := by
  intro l
  induction l with
  | nil => intro p n _; simp [noUnescaped]
  | cons c rest ih =>
    intro p n h
    cases n with
    | zero => rfl
    | succ n =>
      rw [List.take_succ_cons]
      simp only [noUnescaped, Bool.and_eq_true] at h ⊢
      exact ⟨h.1, ih c n h.2⟩

/-- The escaped stream contains no newline or carriage-return characters. -/
theorem escChar_no_newline : ∀ s : List Char,
    ((s.flatMap escChar).all (fun c => !(c == '\n') && !(c == '\r'))) = true := by
  intro s
  induction s with
  | nil => rfl
  | cons c s ih =>
    rw [List.flatMap_cons, List.all_append, ih, Bool.and_true]
    by_cases h7 : c = '\n'
    · subst h7; decide
    by_cases h8 : c = '\r'
    · subst h8; decide
    by_cases hs : isSpecial c = true
    · have he : escChar c = [bslash, c] := by simp [escChar, hs]
      rw [he]
      simp [h7, h8]
      decide
    · have he : escChar c = [c] := by simp [escChar, hs, h7, h8]
      rw [he]
      simp [h7, h8]

/-- The character data of the escaped output is the truncated single-pass map. -/
theorem escapeText_data (s : String) :
    (escapeText s).data = (s.data.flatMap escChar).take 200 := by
  rw [show (escapeText s).data = escapeTextData s.data from rfl, escapeTextData,
    escapeChain_eq_flatMap]

/-! ## Claim theorems -/

/-- Claim C1 (code_bug evidence). The claim states that the reported total
duration equals the sum of the per-segment durations produced by the
segmenter.  In video-simple.ts — the variant routes.ts imports — the
composer ignores the segment durations entirely: it always reports the sum
of the hardcoded table `[3, 5, 4, 4, 4, 3]`, namely 23.  For the input
`{title: "T", content: "", hook: "H", thumbnailText: "C"}` the segmenter
produces three slides with durations summing to 11, yet `generateVideo`
reports 23; moreover the filter graph itself holds the three slides for
3 + 5 + 4 = 12 seconds, so the reported 23 matches neither the segmenter
nor the composed timeline. -/
theorem C1_reported_duration_diverges :
    slideDurationSum (createContentSlides ⟨"T", "", "H", "C"⟩) = 11 ∧
    slideshowTotalDuration = 23 ∧
    generateVideo (.ok ()) "video_1" ⟨"T", "", "H", "C"⟩ =
      .ok ⟨"./generated-videos/video_1.mp4", 23, "video_1.mp4"⟩ ∧
    ((List.range 3).map jsSlideDuration).sum = 12 := by
  have hslides : createContentSlides ⟨"T", "", "H", "C"⟩ =
      [⟨"title", "C", "BREAKING NEWS", 3⟩, ⟨"hook", "H", "", 5⟩, ctaSlide] := by decide
  have htot : slideshowTotalDuration = 23 := by
    norm_num [slideshowTotalDuration, slideDurationsArr]
  have h0 : jsSlideDuration 0 = 3 := by decide
  have h1 : jsSlideDuration 1 = 5 := by decide
  have h2 : jsSlideDuration 2 = 4 := by decide
  refine ⟨?_, htot, ?_, ?_⟩
  · rw [hslides]
    norm_num [slideDurationSum, ctaSlide]
  · simp [generateVideo, createSlideshowVideo, htot, outputDir]
  · simp [List.range_succ, h0, h1, h2]
    norm_num

/-- Claim C2 (counterexample). On
`{title: "T", content: "One. Two. Three. Four.", hook: "H", thumbnailText: "C"}`
the segmenter does NOT yield 5 segments with 2 body segments as claimed: it
yields 3 segments and 0 body segments, because each of the four sentence
fragments is shorter than the 10-character noise filter. -/
theorem C2_counterexample :
    (createContentSlides ⟨"T", "One. Two. Three. Four.", "H", "C"⟩).length = 3 ∧
    ((createContentSlides ⟨"T", "One. Two. Three. Four.", "H", "C"⟩).filter
      (fun sl => sl.type == "content")).length = 0 := by
  decide

/-- Claim C2 (amended). The call splits the content into the fragments
"One", " Two", " Three", " Four" (and a trailing empty field), every one of
which is discarded by the `trim().length > 10` filter, so the call yields 0
body segments and exactly 3 segments — title, hook, call-to-action — in
that fixed order. -/
theorem C2_amended :
    ((splitTermRuns ("One. Two. Three. Four.".data)).map List.asString) =
      ["One", " Two", " Three", " Four", ""] ∧
    jsSentences "One. Two. Three. Four." = [] ∧
    createContentSlides ⟨"T", "One. Two. Three. Four.", "H", "C"⟩ =
      [⟨"title", "C", "BREAKING NEWS", 3⟩, ⟨"hook", "H", "", 5⟩,
       ⟨"cta", "What do you think?", "Like & Subscribe for more news!", 3⟩] := by
  decide

/-- Claim C3. The body-segment duration of video.ts is
`max(8, min(20, wordCount / 2.5))`: a 1-word chunk gets exactly the minimum
8, a 1000-word chunk gets exactly the maximum 20, every chunk duration lies
in [8, 20], the formula is non-decreasing in word count, and every body
segment built by the batching loop carries exactly this duration of its own
word count. -/
theorem C3_segment_duration_clamp :
    segmentDuration 1 = 8 ∧ segmentDuration 1000 = 20 ∧
    (∀ w, 8 ≤ segmentDuration w ∧ segmentDuration w ≤ 20) ∧
    (∀ w1 w2, w1 ≤ w2 → segmentDuration w1 ≤ segmentDuration w2) ∧
    (∀ (time : ℚ) (l : List String) (seg : VideoSegment),
      seg ∈ bodySegmentsAux time l → seg.duration = segmentDuration (wordCount seg.text)) := by
  refine ⟨by norm_num [segmentDuration, avgWordsPerSecond],
    by norm_num [segmentDuration, avgWordsPerSecond],
    fun w => ⟨le_max_left _ _, max_le (by norm_num) (min_le_left _ _)⟩,
    ?_, mem_bodySegmentsAux⟩
  intro w1 w2 h
  have hc : (w1 : ℚ) ≤ w2 := by exact_mod_cast h
  exact max_le_max le_rfl (min_le_min le_rfl
    ((div_le_div_iff_of_pos_right (by norm_num [avgWordsPerSecond])).mpr hc))

/-- Witness for C3: the clamp facts at word counts 7, 2 and 3, and the
duration attached to a concrete body segment built from one usable
sentence. -/
theorem C3_witness :
    (8 ≤ segmentDuration 7 ∧ segmentDuration 7 ≤ 20) ∧
    segmentDuration 2 ≤ segmentDuration 3 ∧
    (VideoSegment.mk "alpha beta gamma" 15
        (segmentDuration (wordCount "alpha beta gamma"))).duration =
      segmentDuration (wordCount "alpha beta gamma") := by
  have ht : jsTrim "alpha beta gamma" = "alpha beta gamma" := by decide
  have hmem : (⟨"alpha beta gamma", 15,
      segmentDuration (wordCount "alpha beta gamma")⟩ : VideoSegment) ∈
      bodySegmentsAux 15 ["alpha beta gamma"] := by
    simp only [bodySegmentsAux]
    rw [if_neg (by decide), ht]
    exact List.mem_singleton.mpr rfl
  exact ⟨C3_segment_duration_clamp.2.2.1 7,
    C3_segment_duration_clamp.2.2.2.1 2 3 (by norm_num),
    C3_segment_duration_clamp.2.2.2.2 15 ["alpha beta gamma"] _ hmem⟩

/-- Claim C4. For any compilation of exactly two articles, the slide
sequence is: the hook title slide and the compilation-title slide, then per
article (in input order) a numbering slide ("#1", "#2"), a subtitle slide
with the article title, a body slide with the article content and a
source-attribution slide, and finally the closing slide — exactly 2 of each
per-article kind, grouped per article. -/
theorem C4_compilation_slide_order (a1 a2 : ArticleData) (ct hk tt : String) :
    createCompilationSlides ⟨[a1, a2], ct, hk, tt⟩ =
      [⟨"title", hk, "gradient-red", 3⟩,
       ⟨"title", ct, "gradient-blue", 4⟩,
       ⟨"number", "#1", "gradient-purple", 2⟩,
       ⟨"subtitle", a1.title, "gradient-blue", 5⟩,
       ⟨"content", a1.content, "gradient-green", 6⟩,
       ⟨"source", "Source: " ++ a1.source, "gradient-gray", 2⟩,
       ⟨"number", "#2", "gradient-purple", 2⟩,
       ⟨"subtitle", a2.title, "gradient-blue", 5⟩,
       ⟨"content", a2.content, "gradient-green", 6⟩,
       ⟨"source", "Source: " ++ a2.source, "gradient-gray", 2⟩,
       ⟨"closing", tt, "gradient-red", 4⟩] ∧
    (createCompilationSlides ⟨[a1, a2], ct, hk, tt⟩).map (·.type) =
      ["title", "title", "number", "subtitle", "content", "source",
       "number", "subtitle", "content", "source", "closing"] := by
  exact ⟨rfl, rfl⟩

/-- Claim C5. For every input — in particular for empty content or content
with no sentence-terminating punctuation — the segmenter yields at least 3
slides (title, hook, call-to-action survive unconditionally) and every
slide duration is strictly positive. -/
theorem C5_min_segments_positive_durations (opts : VideoOptions) :
    3 ≤ (createContentSlides opts).length ∧
    ∀ sl ∈ createContentSlides opts, 0 < sl.duration := by
  constructor
  · simp [createContentSlides]
  · intro sl h
    rw [createContentSlides] at h
    simp only [List.mem_append, List.mem_cons, List.mem_singleton, List.not_mem_nil,
      or_false] at h
    rcases h with ((h | h) | h) | h
    · subst h
      norm_num [titleSlide]
    · subst h
      norm_num [hookSlide]
    · exact mem_contentSlides_pos _ _ h
    · subst h
      norm_num [ctaSlide]

/-- Witness for C5 at the empty-content input, applied to the CTA slide. -/
theorem C5_witness :
    3 ≤ (createContentSlides ⟨"T", "", "H", "C"⟩).length ∧ 0 < ctaSlide.duration :=
  ⟨(C5_min_segments_positive_durations ⟨"T", "", "H", "C"⟩).1,
   (C5_min_segments_positive_durations ⟨"T", "", "H", "C"⟩).2 ctaSlide (by decide)⟩

/-- Claim C6. Order is preserved end to end: the render loop pairs the slide
at position `i` with the image path indexed `i` (so the returned path list
is exactly the indexed paths in order), and the concat accumulation of the
composer builds the left-nested pairwise fold whose leaf sequence is the
inputs `0, 1, ..., n` in strict input order — no reordering. -/
theorem C6_order_preservation (slides : List Slide) (videoId : String) (n : Nat) :
    renderLoopAux videoId 0 slides =
      slides.zip ((List.range slides.length).map (slideImagePath videoId)) ∧
    generateSlideImages slides videoId =
      (List.range slides.length).map (slideImagePath videoId) ∧
    buildConcatTree (n + 1) = some (leftNest n) ∧
    leaves (leftNest n) = List.range (n + 1) := by
  have h0 := renderLoopAux_eq slides videoId 0
  simp only [Nat.zero_add] at h0
  refine ⟨h0, ?_, buildConcatTree_eq n, leaves_leftNest n⟩
  rw [generateSlideImages, h0]
  exact List.map_snd_zip _ _ (by simp)

/-- Claim C7 (counterexample). In a 2-slide composition the LAST slide is
the chain built for input 1, and that chain DOES carry a fade-out (at
`5 - 0.5 = 4.5`), contradicting the claim that no fade-out is applied to
the last slide. -/
theorem C7_counterexample :
    (slideChains 2).getLast? = some (slideChain 1) ∧
    (slideChain 1).fadeOut = some ⟨9 / 2, 1 / 2⟩ := by
  constructor
  · rfl
  · simp [slideChain, jsSlideDuration, slideDurationsArr]
    norm_num

/-- Claim C7 (amended). Every slide is scaled to 1920x1080 and receives a
0.5-second fade-in; a fade-out (starting at its duration minus 0.5) is
applied to every slide except the first — including the last; and each
slide held for its composer-assigned duration by clone-padding. -/
theorem C7_amended_fades (i : Nat) :
    (slideChain i).scaleW = 1920 ∧ (slideChain i).scaleH = 1080 ∧
    (slideChain i).fadeIn = ⟨0, 1 / 2⟩ ∧
    (slideChain i).fadeOut =
      (if i = 0 then none else some ⟨jsSlideDuration i - 1 / 2, 1 / 2⟩) ∧
    (slideChain i).padStopDuration = jsSlideDuration i := by
  by_cases h : i = 0 <;> simp [slideChain, h]

/-- Claim C8. When the encoding backend fails with diagnostic `msg`, the
composer rejects with `Video composition failed: msg` and the orchestrator
rethrows `Video generation failed: Video composition failed: msg` — the
backend text is preserved verbatim inside the surfaced error, and the job
result is the error, not a video. -/
theorem C8_error_propagation (videoId msg : String) (opts : VideoOptions) :
    createSlideshowVideo (.error msg) (generateSlideImages (createContentSlides opts) videoId) =
      .error ("Video composition failed: " ++ msg) ∧
    generateVideo (.error msg) videoId opts =
      .error ("Video generation failed: " ++ ("Video composition failed: " ++ msg)) :=
  ⟨rfl, rfl⟩

/-- Claim C9. A request to the `/videos` route whose path does not end in
`.mp4` is answered with the 404 response and never reaches the static file
handler; a path ending in `.mp4` falls through to the static handler. -/
theorem C9_mp4_only (p : String) :
    (jsEndsWith p ".mp4" = false → videosRoute p = .notFound) ∧
    (jsEndsWith p ".mp4" = true → videosRoute p = .serveStatic p) := by
  constructor <;> intro h <;> simp [videosRoute, h]

/-- Witness for C9 at the concrete paths `/clip.txt` and `/clip.mp4`. -/
theorem C9_witness :
    videosRoute "/clip.txt" = .notFound ∧
    videosRoute "/clip.mp4" = .serveStatic "/clip.mp4" :=
  ⟨(C9_mp4_only "/clip.txt").1 (by decide), (C9_mp4_only "/clip.mp4").2 (by decide)⟩

/-- Claim C10. For every input string, `escapeText` returns at most 200
characters, the result contains no newline or carriage-return characters,
and every surviving single-quote, colon, square bracket, comma and
semicolon is immediately preceded by a backslash (longer inputs are
silently truncated, possibly leaving a trailing lone backslash — which the
escaping property tolerates). -/
theorem C10_escapeText_bounds (s : String) :
    (escapeText s).length ≤ 200 ∧
    ((escapeText s).data.all (fun c => !(c == '\n') && !(c == '\r'))) = true ∧
    wellEscaped (escapeText s).data = true := by
  refine ⟨?_, ?_, ?_⟩
  · rw [← String.length_data, escapeText_data]
    exact List.length_take_le _ _
  · rw [escapeText_data]
    have h := escChar_no_newline s.data
    rw [List.all_eq_true] at h ⊢
    intro x hx
    exact h x ((List.take_sublist _ _).subset hx)
  · rw [wellEscaped, escapeText_data]
    exact noUnescaped_take _ _ _ (noUnescaped_flatMap s.data ' ')

end RedditVideoBot
